import Mathlib

/-!
Verification of the AR account-clearing engine (`src/engine/biaProcessor.py`,
`src/engine/biaCore.py`, `src/engine/biaRecovery.py`).

The development is a shallow embedding of the reconciliation, matching and
checkpointed pipeline code.  Pandas `DataFrame`s of consolidated FBL5N/DMS
records are embedded as `List Record`; machine floats (amounts, thresholds)
are embedded as `ℚ`; Python exceptions (`assert`, `UnboundLocalError`) are
embedded as `Option`/`Except` results.  Regex case-identifier extraction
(`_get_cases`) is abstracted by the `textCases` field, which carries the list
of case identifiers a record's free `Text` field contains.
-/

namespace ARClearing

/-- One consolidated accounting record: a row of the FBL5N ledger dump after
parsing/conversion (`_parse_fbl5n_data`, `_convert_fbl5n_data`), left-merged
with the DMS case columns (`consolidate`).  The three match flags and the
`Warnings` and `Virtual_ID` columns are created by `_parse_fbl5n_data`
initialised to `False`/`""`/`NA`; DMS-side columns are `none` for ledger rows
without a matching case. -/
structure Record where
  documentNumber : Nat
  documentType : String
  dcAmount : ℚ
  currency : String
  tax : String
  /-- Case identifiers `_get_cases` extracts from the row's `Text` field. -/
  textCases : List Nat
  branch : Nat
  headOffice : Nat
  id : Option Nat
  virtualId : Option Nat
  idMatch : Bool
  amountMatch : Bool
  taxMatch : Bool
  warnings : String
  debitor : Option Nat
  caseId : Option Nat
  notification : Option Nat
  status : Option Nat
  rootCause : Option String
  category : Option String
  customerName : Option String
  deriving DecidableEq, Repr

/-- Default record value, used only as the `getD` fallback. -/
def defaultRecord : Record :=
  { documentNumber := 0, documentType := "", dcAmount := 0, currency := ""
    tax := "", textCases := [], branch := 0, headOffice := 0, id := none
    virtualId := none, idMatch := false, amountMatch := false, taxMatch := false
    warnings := "", debitor := none, caseId := none, notification := none
    status := none, rootCause := none, category := none, customerName := none }

instance : Inhabited Record := ⟨defaultRecord⟩

/-- `_NULL_TAX` of `biaProcessor.py`: the empty string stands for a missing
tax code. -/
def nullTax : String := ""

/-- `INVALID_THRESHOLD` of `evaluate_items`. -/
def INVALID_THRESHOLD : ℚ := -1

/-- The fixed allow-list of `evaluate_items`: tax codes that may pair with the
null tax code. -/
def allowedTaxCodes : List String :=
  ["YR", "YN", "TT", "TZ", "YO", "C3", "IG", "K6", "AU", "UU"]

/-- The non-null `ID` values of the data, with multiplicity
(`data.loc[data["ID"].notna(), "ID"]`). -/
def idValues (data : List Record) : List Nat :=
  data.filterMap (·.id)

/-- Whether identifier `n` occurs more than once among the non-null `ID`
values (`id_values.duplicated(keep = False)` marks exactly these rows). -/
def isDuplicated (data : List Record) (n : Nat) : Bool :=
  decide (2 ≤ (idValues data).count n)

/-- The duplicated identifiers, without multiplicity
(`id_values[duplicated].unique()`).  `pandas.unique` keeps the first
occurrence while `List.dedup` keeps the last; the two agree up to order, and
no consumer of this list is order sensitive. -/
def duplicatedIds (data : List Record) : List Nat :=
  ((idValues data).filter (fun n => isDuplicated data n)).dedup

/-- The member rows of the identifier group `n`
(`id_recs = data[data["ID"] == id_num]`). -/
def idRecs (data : List Record) (n : Nat) : List Record :=
  data.filter (fun r => r.id = some n)

/-- The distinct tax codes used by a group (`id_recs["Tax"].unique()`), cf.
the order remark on `duplicatedIds`. -/
def groupTaxes (recs : List Record) : List String :=
  (recs.map (·.tax)).dedup

/-- The `tax_code` variable of the `evaluate_items` group loop: the group's
single tax code, or the non-null one of a null/non-null pair, or the null
code. -/
def groupTaxCode (recs : List Record) : String :=
  let taxes := groupTaxes recs
  if taxes.length = 1 then taxes.headD nullTax
  else if taxes.length = 2 ∧ nullTax ∈ taxes then
    (taxes.filter (fun t => t ≠ nullTax)).headD nullTax
  else nullTax

/-- The `Tax_Match` decision of the `evaluate_items` group loop: one distinct
tax code always matches; a null/non-null pair matches when the non-null code
is on the allow-list; anything else does not match. -/
def groupTaxMatched (recs : List Record) : Bool :=
  let taxes := groupTaxes recs
  if taxes.length = 1 then true
  else if taxes.length = 2 ∧ nullTax ∈ taxes then
    decide (groupTaxCode recs ∈ allowedTaxCodes)
  else false

/-- `if base_thresh == 0: base_thresh += 0.01` at the top of
`evaluate_items`. -/
def adjustBase (b : ℚ) : ℚ :=
  if b = 0 then b + 1 / 100 else b

/-- Threshold resolution of the group loop: the per-tax-code threshold when
the map has the group's tax code, the (adjusted) base threshold otherwise. -/
def resolveThresh (base : ℚ) (taxThresholds : List (String × ℚ)) (code : String) : ℚ :=
  match taxThresholds.lookup code with
  | some t => t
  | none => base

/-- Sum of the signed amounts of a group (`dc_amnts.sum()`). -/
def sumAmounts (recs : List Record) : ℚ :=
  (recs.map (·.dcAmount)).sum

/-- The `Amount_Match` decision of the `evaluate_items` group loop:
`abs(dc_amnts.sum()) < thresh and any(dc_amnts > 0) and any(dc_amnts < 0)`. -/
def groupAmountMatched (thresh : ℚ) (recs : List Record) : Bool :=
  decide (|sumAmounts recs| < thresh) &&
    recs.any (fun r => decide (0 < r.dcAmount)) &&
    recs.any (fun r => decide (r.dcAmount < 0))

/-- Effect of one `evaluate_items` pass on a single row: rows of a duplicated
identifier group get `ID_Match` set and `Tax_Match`/`Amount_Match` raised by
the group decisions; all other rows are untouched.  The `||` reflects that
the Python code only ever assigns `True` to a flag, never `False`. -/
def evaluateRecord (base : ℚ) (taxThresholds : List (String × ℚ))
    (data : List Record) (r : Record) : Record :=
  match r.id with
  | none => r
  | some n =>
    if isDuplicated data n then
      let recs := idRecs data n
      let thresh := resolveThresh base taxThresholds (groupTaxCode recs)
      { r with
        idMatch := true
        taxMatch := r.taxMatch || groupTaxMatched recs
        amountMatch := r.amountMatch || groupAmountMatched thresh recs }
    else r

/-- `evaluate_items` of `biaProcessor.py`.  The input is returned unchanged
when no identifier is duplicated; the result is `none` when the
`assert thresh != INVALID_THRESHOLD` of the group loop fires (the Python
function then raises and produces no data). -/
def evaluate_items (baseThreshold : ℚ) (taxThresholds : List (String × ℚ))
    (consolid : List Record) : Option (List Record) :=
  let base := adjustBase baseThreshold
  if (duplicatedIds consolid).isEmpty then some consolid
  else if (duplicatedIds consolid).all (fun n =>
      !decide (resolveThresh base taxThresholds (groupTaxCode (idRecs consolid n)) =
        INVALID_THRESHOLD)) then
    some (consolid.map (evaluateRecord base taxThresholds consolid))
  else none

/-- `get_matched_items` of `biaProcessor.py`: the rows whose three match
flags are all `True`. -/
def get_matched_items (data : List Record) : List Record :=
  data.filter (fun r => r.idMatch && r.taxMatch && r.amountMatch)

/-- `_get_new_root_cause` of `biaProcessor.py`.  The Python body assigns
`new_root_cause` only in the three guarded branches; when none applies the
final `return` raises `UnboundLocalError`, embedded here as `none`. -/
def _get_new_root_cause (prevRtCause : String) (docTypes : List String) : Option String :=
  if prevRtCause = "L06" ∨ prevRtCause = "L01" then some prevRtCause
  else if "DG" ∈ docTypes then some "L06"
  else if "DZ" ∈ docTypes ∨ "DA" ∈ docTypes then some "L01"
  else none

/-- A row is a multi-case row when its `Text` field carries more than one
case identifier (`multi_id_recs = data.index[case_IDs.str.len() > 1]`). -/
def isMultiCase (r : Record) : Bool :=
  decide (1 < r.textCases.length)

/-- The positions of the multi-case rows, in index order. -/
def multiIdxs (data : List Record) : List Nat :=
  (List.range data.length).filter (fun i => isMultiCase ((data[i]?).getD defaultRecord))

/-- The case identifiers in the `Text` of the row at position `i`
(`_get_cases(data["Text"][idx], case_id_rx)`; the Python loop reads them from
the original frame `data`, not from the mutated copy `virtual`). -/
def refsAt (data : List Record) (i : Nat) : List Nat :=
  ((data[i]?).getD defaultRecord).textCases

/-- One iteration of the `_virtualize` loop body on the mutated copy: the row
at position `idx` and every row whose `ID` equals one of the case identifiers
`caseIds` get `Virtual_ID := vid`. -/
def assignVirtAux (idx : Nat) (caseIds : List Nat) (vid : Nat) :
    Nat → List Record → List Record
  | _, [] => []
  | j, r :: rs =>
    (if j = idx || caseIds.any (fun c => r.id = some c) then
      { r with virtualId := some vid }
    else r) :: assignVirtAux idx caseIds vid (j + 1) rs

/-- See `assignVirtAux`; positions are counted from the head of the list. -/
def assignVirt (virt : List Record) (idx : Nat) (caseIds : List Nat) (vid : Nat) :
    List Record :=
  assignVirtAux idx caseIds vid 0 virt

/-- The `for idx in multi_id_recs` loop of `_virtualize`: the virtual-ID
generator hands out `vid`, `vid + 1`, ... to the multi-case rows in index
order; `orig` is the unmutated input frame the case identifiers are read
from. -/
def virtualizeLoop (orig : List Record) : List Nat → Nat → List Record → List Record
  | [], _, virt => virt
  | idx :: rest, vid, virt =>
    virtualizeLoop orig rest (vid + 1) (assignVirt virt idx (refsAt orig idx) vid)

/-- `_virtualize` of `biaProcessor.py`: returns the input unchanged when no
row carries more than one case identifier, and otherwise runs the generator
loop seeded at `base`. -/
def _virtualize (data : List Record) (base : Nat) : List Record :=
  if (multiIdxs data).isEmpty then data
  else virtualizeLoop data (multiIdxs data) base data

/-- The `Virtual_ID`/`ID` swap of `consolidate`: when any `Virtual_ID` is
assigned, every row holding one has its `ID` and `Virtual_ID` fields
exchanged. -/
def swapVirtual (data : List Record) : List Record :=
  if data.any (fun r => r.virtualId.isSome) then
    data.map (fun r =>
      if r.virtualId.isSome then { r with id := r.virtualId, virtualId := r.id } else r)
  else data

/-- `_detect_inconsistencies` of `biaProcessor.py`: the three warning checks
write the same single `Warnings` slot, the last applicable writer wins.
`pandas.query` drops rows whose comparison involves `NA`, hence the
`Debitor` check requires a present debitor and a present `ID`. -/
def _detect_inconsistencies (validTaxes : List String) (data : List Record) : List Record :=
  data.map (fun r =>
    let r1 :=
      if (match r.debitor with | some d => decide (d ≠ r.branch) | none => false) &&
          r.id.isSome then
        { r with warnings := "FBL5N and DMS debitors not equal!" }
      else r
    let r2 :=
      if !(validTaxes.contains r1.tax) then
        { r1 with warnings := "Unexpected tax code detected!" }
      else r1
    if r2.status = some 4 then
      { r2 with warnings := "Devaluated case ID assigned to an open item!" }
    else r2)

/-- Descending `ID` order with nulls last, the sort key of `_order_data`
(`sort_values(fields, ascending = False)`; `pandas` puts `NaN` keys last). -/
def idDescLE (a b : Record) : Bool :=
  match a.id, b.id with
  | some x, some y => decide (y ≤ x)
  | some _, none => true
  | none, some _ => false
  | none, none => true

/-- Insertion step of the sort used to model `_order_data`. -/
def insertDesc (r : Record) : List Record → List Record
  | [] => [r]
  | x :: xs => if idDescLE r x then r :: x :: xs else x :: insertDesc r xs

/-- `_order_data` of `biaProcessor.py` for the `["ID"]` field list.  `pandas`
`sort_values` uses an unstable quicksort, so any reordering that is
descending in the `ID` key is a faithful model; an insertion sort is used
here so that concrete runs compute. -/
def _order_data : List Record → List Record
  | [] => []
  | r :: rs => insertDesc r (_order_data rs)

/-- A parsed FBL5N row before consolidation (the output schema of
`preprocess_fbl5n_data`): the match flags are initialised `False`, `Warnings`
empty and `Virtual_ID` null, exactly as `_parse_fbl5n_data` creates them. -/
structure Item where
  documentNumber : Nat
  documentType : String
  dcAmount : ℚ
  currency : String
  tax : String
  textCases : List Nat
  branch : Nat
  headOffice : Nat
  id : Option Nat
  deriving DecidableEq, Repr

/-- A parsed DMS case row (the output schema of `preprocess_dms_data`). -/
structure Case where
  debitor : Nat
  caseId : Nat
  notification : Nat
  status : Nat
  rootCause : Option String
  category : Option String
  deriving DecidableEq, Repr

/-- A customer master-data row (`pd.read_excel(cust_data_path)`). -/
structure CustRow where
  account : Nat
  name : String
  deriving DecidableEq, Repr

/-- The consolidated row built from a ledger item and an optional matching
DMS case, as produced by the left merge of `consolidate`. -/
def mkRecord (it : Item) (c : Option Case) : Record :=
  { documentNumber := it.documentNumber, documentType := it.documentType
    dcAmount := it.dcAmount, currency := it.currency, tax := it.tax
    textCases := it.textCases, branch := it.branch, headOffice := it.headOffice
    id := it.id, virtualId := none, idMatch := false, amountMatch := false
    taxMatch := false, warnings := "", debitor := c.map (·.debitor)
    caseId := c.map (·.caseId), notification := c.map (·.notification)
    status := c.map (·.status), rootCause := c.bind (·.rootCause)
    category := c.bind (·.category), customerName := none }

/-- `pd.merge(fbl5n, dms, how = "left", left_on = "ID", right_on = "Case_ID")`:
every ledger row is kept; a row with matching cases is replicated once per
match, a row without a match keeps null case columns. -/
def leftMerge (fbl5n : List Item) (dms : List Case) : List Record :=
  fbl5n.flatMap (fun it =>
    let ms := dms.filter (fun c => it.id = some c.caseId)
    if ms.isEmpty then [mkRecord it none]
    else ms.map (fun c => mkRecord it (some c)))

/-- The customer-enrichment merge of `consolidate`
(`pd.merge(merged, cust, how = "left", left_on = "Head_Office",
right_on = "Account")`). -/
def enrichCustomers (data : List Record) (cust : List CustRow) : List Record :=
  data.flatMap (fun r =>
    let ms := cust.filter (fun c => r.headOffice = c.account)
    if ms.isEmpty then [{ r with customerName := none }]
    else ms.map (fun c => { r with customerName := some c.name }))

/-- The post-merge tail of `consolidate`: virtual-ID synthesis with the
generator seeded at `10000000`, the `ID`/`Virtual_ID` swap, the warning
checks, and the descending-`ID` ordering. -/
def finalizeConsolidation (validTaxes : List String) (merged : List Record) :
    List Record :=
  _order_data (_detect_inconsistencies validTaxes (swapVirtual (_virtualize merged 10000000)))

/-- `consolidate` of `biaProcessor.py`.  `Except.error` embeds the
`assert len(merged) > 0` `AssertionError` (which propagates out of the
caller); `Except.ok none` embeds the `return None` taken when customer data
is supplied but some merged row has no customer name. -/
def consolidate (fbl5n : List Item) (dms : List Case) (cust : Option (List CustRow))
    (validTaxes : List String) : Except String (Option (List Record)) :=
  let merged := leftMerge fbl5n dms
  if merged.length = 0 then
    .error "Data unmerged! Check the correctness of the megring key!"
  else
    match cust with
    | none => .ok (some (finalizeConsolidation validTaxes merged))
    | some cs =>
      let enriched := enrichCustomers merged cs
      if enriched.any (fun r => r.customerName.isNone) then .ok none
      else .ok (some (finalizeConsolidation validTaxes enriched))

/-- The per-entity checkpoint map of `biaRecovery.py`
(`reset_entity_states` initialises every checkpoint to `False`).
`save_entity_state` rewrites the durable recovery file on every store, so the
in-memory and the persisted state always agree and a single state value
models both. -/
structure EntityState where
  fbl5n_data_exported : Bool := false
  fbl5n_data_converted : Bool := false
  fbl5n_data_no_case : Bool := false
  dms_data_exported : Bool := false
  dms_data_converted : Bool := false
  f30_input_generated : Bool := false
  f30_items_cleared : Bool := false
  dms_cases_processed : Bool := false
  data_consolidated : Bool := false
  data_analyzed : Bool := false
  qm_notifications_processed : Bool := false
  deriving DecidableEq, Repr

instance : Inhabited EntityState := ⟨{}⟩

/-- Outcome of one `fbl5n.export` call, the external collaborator of
`export_fbl5n_data`.  The `ConnectionLostError` retry path is not modelled
(its re-invocation drops the session argument and cannot run). -/
inductive ExportOutcome
  | ok
  | noDataFound
  | abapError
  | worklistNotFoundError
  deriving DecidableEq, Repr

/-- Result of one entity's slice of a `biaCore.py` stage loop: the updated
checkpoint state, how often the stage's exporter was invoked, and the
`success` accumulator after the slice. -/
structure ExportResult where
  state : EntityState
  exportCalls : Nat
  success : Bool
  deriving DecidableEq, Repr

/-- The body of the `export_fbl5n_data` entity loop (`biaCore.py`): entities
whose `fbl5n_data_exported` checkpoint is already set are skipped; a
`NoDataFoundWarning` leaves the checkpoint untouched (`continue`); any other
outcome reaches `rec.save_entity_state(ent, "fbl5n_data_exported", True)`. -/
def export_fbl5n_entity (outcome : ExportOutcome) (st : EntityState) (succ : Bool) :
    ExportResult :=
  if st.fbl5n_data_exported then ⟨st, 0, true⟩
  else
    match outcome with
    | .noDataFound => ⟨st, 1, succ⟩
    | _ => ⟨{ st with fbl5n_data_exported := true }, 1, true⟩

/-- `_exist_cases` of `biaCore.py`: whether the converted FBL5N data contains
at least one case identifier. -/
def existCases (data : List Record) : Bool :=
  data.any (fun r => r.id.isSome)

/-- Result of one entity's slice of the `load_fbl5n_data` loop: the updated
checkpoint state, whether `preprocess_fbl5n_data` ran, the value stored into
the accumulator under `"fbl5n_data"` (`none` embeds Python `None`), and the
`success` accumulator. -/
structure LoadResult where
  state : EntityState
  convertCalled : Bool
  accumStored : Option (List Record)
  success : Bool
  deriving DecidableEq, Repr

/-- The body of the `load_fbl5n_data` entity loop (`biaCore.py`).  `binData`
is what `read_binary` would return for the entity, `convData` what
`preprocess_fbl5n_data` would: a false `fbl5n_data_exported` checkpoint is
read as "no open items" and recorded as a null accumulator entry; a true
`fbl5n_data_converted` checkpoint skips the conversion; otherwise the
conversion runs and, when it yields data, the `fbl5n_data_converted`
checkpoint (and `fbl5n_data_no_case` when no case identifier exists) is
persisted. -/
def load_fbl5n_entity (binData : List Record) (convData : Option (List Record))
    (st : EntityState) (succ : Bool) : LoadResult :=
  if !st.fbl5n_data_exported then ⟨st, false, none, succ⟩
  else
    let conv : Option (List Record) :=
      if st.fbl5n_data_converted then some binData else convData
    let called := !st.fbl5n_data_converted
    match conv with
    | some c =>
      ⟨{ st with
          fbl5n_data_converted := true
          fbl5n_data_no_case := st.fbl5n_data_no_case || !existCases c },
        called, some c, true⟩
    | none => ⟨st, called, none, true⟩

/-- One clearing record of the clearing input, reduced to the fields the
`clear_open_items` control flow reads. -/
structure ClearRecordIn where
  skipped : Bool
  caseIds : List Nat
  deriving DecidableEq, Repr

/-- Outcome of the F-30 interaction for one currency bucket
(`load_account_items` / `select_and_transfer` / `post_items`). -/
inductive PostOutcome
  | posted
  | loadFailed
  | selectFailed
  | postFailed
  deriving DecidableEq, Repr

/-- The currency loop body of `clear_open_items`: a bucket whose records are
all skipped is passed over (`continue` before any F-30 call), otherwise the
bucket is posted exactly when the F-30 interaction succeeds. -/
def clear_currency (recs : List ClearRecordIn) (outcome : PostOutcome) : Bool :=
  if recs.all (·.skipped) then false
  else
    match outcome with
    | .posted => true
    | _ => false

/-- Result of one entity's slice of the `clear_open_items` loop. -/
structure ClearResult where
  state : EntityState
  outputIsNone : Bool
  success : Bool
  deriving DecidableEq, Repr

/-- The body of the `clear_open_items` entity loop (`biaCore.py`): a null
`"clearing_input"` accumulator entry stores a null `"clearing_output"` entry
and marks success without touching any checkpoint; a set `f30_items_cleared`
checkpoint replays the stored output; otherwise the currency buckets are
cleared and `f30_items_cleared` is persisted as "did any bucket post". -/
def clear_open_items_entity (input : Option (List (List ClearRecordIn × PostOutcome)))
    (st : EntityState) (succ : Bool) : ClearResult :=
  match input with
  | none => ⟨st, true, true⟩
  | some currs =>
    if st.f30_items_cleared then ⟨st, false, true⟩
    else
      let posted := currs.any (fun cb => clear_currency cb.1 cb.2)
      ⟨{ st with f30_items_cleared := posted }, false, succ || posted⟩

/-- One entity's input to the `consolidate_data` loop: its checkpoints and
the data `consolidate` would be handed. -/
structure ConsEntity where
  name : String
  dmsExported : Bool
  dataConsolidated : Bool
  items : List Item
  cases : List Case
  cust : Option (List CustRow)
  validTaxes : List String

/-- The `consolidate_data` entity loop of `biaCore.py`, threading the
`success` flag and collecting the names of the entities whose fresh
consolidation was stored.  The un-handled `AssertionError` of
`proc.consolidate` propagates as `Except.error`, abandoning the remaining
entities (the caller `app.main` does not catch it either); a `None`
consolidation result skips the entity (`continue`). -/
def consolidate_data_go (succ : Bool) (done : List String) :
    List ConsEntity → Except String (Bool × List String)
  | [] => .ok (succ, done)
  | e :: rest =>
    if !e.dmsExported then consolidate_data_go true done rest
    else if e.dataConsolidated then consolidate_data_go true done rest
    else
      match consolidate e.items e.cases e.cust e.validTaxes with
      | .error msg => .error msg
      | .ok none => consolidate_data_go succ done rest
      | .ok (some _) => consolidate_data_go true (done ++ [e.name]) rest

/-- `consolidate_data` of `biaCore.py` over its entity list. -/
def consolidate_data (ents : List ConsEntity) : Except String (Bool × List String) :=
  consolidate_data_go false [] ents

/-- The rows the `_virtualize` loop iteration for the multi-case row at
position `idx` writes to: the row at `idx` itself and every row whose `ID`
field holds one of the case identifiers referenced at `idx`.  `oid` is the
(stable) `ID` value of the row at position `k`. -/
def touches (orig : List Record) (oid : Option Nat) (k idx : Nat) : Prop :=
  k = idx ∨ ∃ c ∈ refsAt orig idx, oid = some c

/-- A consolidated record carrying only the evaluation-relevant fields. -/
def mkEvalRec (num : Nat) (amt : ℚ) (tx : String) (i : Option Nat) : Record :=
  { defaultRecord with documentNumber := num, dcAmount := amt, tax := tx, id := i }

/-- Spec example: two records of one identifier group with amounts `+100` and
`-100` and an identical tax code. -/
def pairGroupData : List Record :=
  [mkEvalRec 1 100 "AA" (some 5), mkEvalRec 2 (-100) "AA" (some 5)]

/-- The evaluation result on `pairGroupData`: all three flags raised. -/
def pairGroupExpected : List Record :=
  [{ mkEvalRec 1 100 "AA" (some 5) with idMatch := true, taxMatch := true, amountMatch := true },
   { mkEvalRec 2 (-100) "AA" (some 5) with idMatch := true, taxMatch := true, amountMatch := true }]

/-- Spec example: an identifier group whose members are all positive and sum
below the threshold. -/
def onesidedGroupData : List Record :=
  [mkEvalRec 1 (3 / 10) "AA" (some 6), mkEvalRec 2 (2 / 10) "AA" (some 6)]

/-- The evaluation result on `onesidedGroupData`: not amount-matched. -/
def onesidedGroupExpected : List Record :=
  [{ mkEvalRec 1 (3 / 10) "AA" (some 6) with idMatch := true, taxMatch := true },
   { mkEvalRec 2 (2 / 10) "AA" (some 6) with idMatch := true, taxMatch := true }]

/-- Spec example: a group with a null/non-null tax pair whose non-null code
is on the allow-list. -/
def nullPairGroupData : List Record :=
  [mkEvalRec 1 5 "YR" (some 7), mkEvalRec 2 (-5) "" (some 7)]

/-- The evaluation result on `nullPairGroupData`: all three flags raised. -/
def nullPairGroupExpected : List Record :=
  [{ mkEvalRec 1 5 "YR" (some 7) with idMatch := true, taxMatch := true, amountMatch := true },
   { mkEvalRec 2 (-5) "" (some 7) with idMatch := true, taxMatch := true, amountMatch := true }]

/-- Spec example: an identifier group summing to exactly `0.00` with one
positive and one negative member. -/
def zeroSumGroupData : List Record :=
  [mkEvalRec 1 50 "AA" (some 9), mkEvalRec 2 (-50) "AA" (some 9)]

/-- Spec example: an identifier group summing to `0.02`. -/
def twoCentGroupData : List Record :=
  [mkEvalRec 1 (101 / 100) "AA" (some 9), mkEvalRec 2 (-99 / 100) "AA" (some 9)]

/-- The evaluation result on `zeroSumGroupData` with a zero base threshold:
the exact-zero group is amount-matched. -/
def zeroSumGroupExpected : List Record :=
  [{ mkEvalRec 1 50 "AA" (some 9) with idMatch := true, taxMatch := true, amountMatch := true },
   { mkEvalRec 2 (-50) "AA" (some 9) with idMatch := true, taxMatch := true, amountMatch := true }]

/-- The evaluation result on `twoCentGroupData` with a zero base threshold:
the `0.02` group is not amount-matched. -/
def twoCentGroupExpected : List Record :=
  [{ mkEvalRec 1 (101 / 100) "AA" (some 9) with idMatch := true, taxMatch := true },
   { mkEvalRec 2 (-99 / 100) "AA" (some 9) with idMatch := true, taxMatch := true }]

/-- A ledger item carrying only the consolidation-relevant fields. -/
def mkItem (num : Nat) (tcs : List Nat) (i : Option Nat) : Item :=
  { documentNumber := num, documentType := "", dcAmount := 0, currency := ""
    tax := "", textCases := tcs, branch := 0, headOffice := 0, id := i }

/-- Three ledger items with overlapping multi-case references: item 0 cites
cases 1 and 2, item 1 cites cases 2 and 3, item 2 carries case 2. -/
def overlapItems : List Item :=
  [mkItem 0 [1, 2] (some 1), mkItem 1 [2, 3] (some 2), mkItem 2 [2] (some 2)]

/-- A consolidated row carrying only the virtualization-relevant fields. -/
def consRec (num : Nat) (tcs : List Nat) (i v : Option Nat) : Record :=
  { defaultRecord with documentNumber := num, textCases := tcs, id := i, virtualId := v }

/-- The consolidation result on `overlapItems`: the later multi-case item
(counter value `10000001`) overwrites the earlier one's assignment on the
shared case `2`, and the ordering step sorts by `ID` descending. -/
def overlapExpected : List Record :=
  [consRec 1 [2, 3] (some 10000001) (some 2),
   consRec 2 [2] (some 10000001) (some 2),
   consRec 0 [1, 2] (some 10000000) (some 1)]

/-- Two consolidated rows with a single multi-case row: row 0 cites cases 1
and 2, row 1 carries case 2. -/
def rekeyData : List Record :=
  [{ defaultRecord with documentNumber := 0, textCases := [1, 2], id := some 1 },
   { defaultRecord with documentNumber := 1, textCases := [2], id := some 2 }]

/-- An entity whose ledger data is empty, so that the left merge of
`consolidate` yields zero rows and its assertion fires. -/
def entNoItems : ConsEntity :=
  ⟨"A", true, false, [], [], none, [""]⟩

/-- A well-formed sibling entity. -/
def entGood : ConsEntity :=
  ⟨"B", true, false, [mkItem 7 [] (some 1)], [], none, [""]⟩

/-- An entity with customer data configured but no matching customer row, so
that enrichment fails and `consolidate` returns null. -/
def entEnrichFail : ConsEntity :=
  ⟨"C", true, false, [mkItem 7 [] (some 1)], [], some [], [""]⟩

theorem evaluateRecord_none {r : Record} (b : ℚ) (t : List (String × ℚ)) (d : List Record)
    (h : r.id = none) : evaluateRecord b t d r = r := by
  unfold evaluateRecord
  rw [h]

theorem evaluateRecord_not_dup {r : Record} {n : Nat} (b : ℚ) (t : List (String × ℚ))
    (d : List Record) (h : r.id = some n) (h2 : isDuplicated d n = false) :
    evaluateRecord b t d r = r := by
  unfold evaluateRecord
  rw [h]
  simp [h2]

theorem evaluateRecord_dup {r : Record} {n : Nat} (b : ℚ) (t : List (String × ℚ))
    (d : List Record) (h : r.id = some n) (h2 : isDuplicated d n = true) :
    evaluateRecord b t d r =
      { r with
        idMatch := true
        taxMatch := r.taxMatch || groupTaxMatched (idRecs d n)
        amountMatch := r.amountMatch ||
          groupAmountMatched (resolveThresh b t (groupTaxCode (idRecs d n))) (idRecs d n) } := by
  unfold evaluateRecord
  rw [h]
  simp [h2]

theorem evaluateRecord_cases (b : ℚ) (t : List (String × ℚ)) (d : List Record) (r : Record) :
    evaluateRecord b t d r = r ∨
    ∃ n, r.id = some n ∧ isDuplicated d n = true ∧
      evaluateRecord b t d r =
        { r with
          idMatch := true
          taxMatch := r.taxMatch || groupTaxMatched (idRecs d n)
          amountMatch := r.amountMatch ||
            groupAmountMatched (resolveThresh b t (groupTaxCode (idRecs d n))) (idRecs d n) } := by
  rcases Option.eq_none_or_eq_some r.id with h | ⟨n, h⟩
  · exact Or.inl (evaluateRecord_none b t d h)
  · cases h2 : isDuplicated d n with
    | false => exact Or.inl (evaluateRecord_not_dup b t d h h2)
    | true => exact Or.inr ⟨n, h, h2, evaluateRecord_dup b t d h h2⟩

theorem evaluateRecord_id (b : ℚ) (t : List (String × ℚ)) (d : List Record) (r : Record) :
    (evaluateRecord b t d r).id = r.id := by
  rcases evaluateRecord_cases b t d r with h | ⟨n, _, _, h⟩ <;> rw [h]

theorem evaluateRecord_tax (b : ℚ) (t : List (String × ℚ)) (d : List Record) (r : Record) :
    (evaluateRecord b t d r).tax = r.tax := by
  rcases evaluateRecord_cases b t d r with h | ⟨n, _, _, h⟩ <;> rw [h]

theorem evaluateRecord_dcAmount (b : ℚ) (t : List (String × ℚ)) (d : List Record) (r : Record) :
    (evaluateRecord b t d r).dcAmount = r.dcAmount := by
  rcases evaluateRecord_cases b t d r with h | ⟨n, _, _, h⟩ <;> rw [h]

theorem idValues_map_evaluateRecord (b : ℚ) (t : List (String × ℚ)) (d0 d : List Record) :
    idValues (d.map (evaluateRecord b t d0)) = idValues d := by
  unfold idValues
  rw [List.filterMap_map]
  apply List.filterMap_congr
  intro a _
  simp [Function.comp, evaluateRecord_id]

theorem isDuplicated_map_evaluateRecord (b : ℚ) (t : List (String × ℚ)) (d0 d : List Record)
    (n : Nat) : isDuplicated (d.map (evaluateRecord b t d0)) n = isDuplicated d n := by
  unfold isDuplicated
  rw [idValues_map_evaluateRecord]

theorem duplicatedIds_map_evaluateRecord (b : ℚ) (t : List (String × ℚ)) (d0 d : List Record) :
    duplicatedIds (d.map (evaluateRecord b t d0)) = duplicatedIds d := by
  unfold duplicatedIds
  rw [idValues_map_evaluateRecord]
  congr 1
  apply List.filter_congr
  intro a _
  rw [isDuplicated_map_evaluateRecord]

theorem idRecs_map_evaluateRecord (b : ℚ) (t : List (String × ℚ)) (d0 d : List Record)
    (n : Nat) :
    idRecs (d.map (evaluateRecord b t d0)) n = (idRecs d n).map (evaluateRecord b t d0) := by
  unfold idRecs
  rw [List.filter_map]
  congr 1
  apply List.filter_congr
  intro a _
  simp [Function.comp, evaluateRecord_id]

theorem groupTaxes_map_evaluateRecord (b : ℚ) (t : List (String × ℚ)) (d0 recs : List Record) :
    groupTaxes (recs.map (evaluateRecord b t d0)) = groupTaxes recs := by
  unfold groupTaxes
  rw [List.map_map]
  congr 1
  apply List.map_congr_left
  intro a _
  simp [Function.comp, evaluateRecord_tax]

theorem groupTaxCode_map_evaluateRecord (b : ℚ) (t : List (String × ℚ)) (d0 recs : List Record) :
    groupTaxCode (recs.map (evaluateRecord b t d0)) = groupTaxCode recs := by
  unfold groupTaxCode
  rw [groupTaxes_map_evaluateRecord]

theorem groupTaxMatched_map_evaluateRecord (b : ℚ) (t : List (String × ℚ))
    (d0 recs : List Record) :
    groupTaxMatched (recs.map (evaluateRecord b t d0)) = groupTaxMatched recs := by
  unfold groupTaxMatched
  rw [groupTaxes_map_evaluateRecord, groupTaxCode_map_evaluateRecord]

theorem sumAmounts_map_evaluateRecord (b : ℚ) (t : List (String × ℚ)) (d0 recs : List Record) :
    sumAmounts (recs.map (evaluateRecord b t d0)) = sumAmounts recs := by
  unfold sumAmounts
  rw [List.map_map]
  congr 1
  apply List.map_congr_left
  intro a _
  simp [Function.comp, evaluateRecord_dcAmount]

theorem groupAmountMatched_map_evaluateRecord (b : ℚ) (t : List (String × ℚ)) (th : ℚ)
    (d0 recs : List Record) :
    groupAmountMatched th (recs.map (evaluateRecord b t d0)) = groupAmountMatched th recs := by
  unfold groupAmountMatched
  rw [sumAmounts_map_evaluateRecord, List.any_map, List.any_map]
  have h1 : ((fun r : Record => decide (0 < r.dcAmount)) ∘ evaluateRecord b t d0) =
      (fun r : Record => decide (0 < r.dcAmount)) := by
    funext a
    simp [Function.comp, evaluateRecord_dcAmount]
  have h2 : ((fun r : Record => decide (r.dcAmount < 0)) ∘ evaluateRecord b t d0) =
      (fun r : Record => decide (r.dcAmount < 0)) := by
    funext a
    simp [Function.comp, evaluateRecord_dcAmount]
  rw [h1, h2]

theorem isDuplicated_eq_false_of_nil {d : List Record} (n : Nat)
    (h : duplicatedIds d = []) : isDuplicated d n = false := by
  by_contra hc
  rw [Bool.not_eq_false] at hc
  have h2 : 2 ≤ (idValues d).count n := of_decide_eq_true hc
  have h3 : n ∈ idValues d := by
    have : 0 < (idValues d).count n := lt_of_lt_of_le (by norm_num) h2
    exact List.count_pos_iff.mp this
  have h4 : n ∈ duplicatedIds d := by
    unfold duplicatedIds
    rw [List.mem_dedup]
    exact List.mem_filter.mpr ⟨h3, hc⟩
  simp [h] at h4

theorem zip_self_eq_map {α : Type} (l : List α) : l.zip l = l.map (fun a => (a, a)) := by
  induction l with
  | nil => rfl
  | cons a l ih => simp [ih]

theorem zip_map_right_self {α : Type} (l : List α) (f : α → α) :
    l.zip (l.map f) = l.map (fun a => (a, f a)) := by
  induction l with
  | nil => rfl
  | cons a l ih => simp [ih]

theorem evaluate_items_branches {out : List Record} (b : ℚ) (t : List (String × ℚ))
    (d : List Record) (h : evaluate_items b t d = some out) :
    (duplicatedIds d = [] ∧ out = d) ∨
    (duplicatedIds d ≠ [] ∧
      (duplicatedIds d).all (fun n =>
        !decide (resolveThresh (adjustBase b) t (groupTaxCode (idRecs d n)) =
          INVALID_THRESHOLD)) = true ∧
      out = d.map (evaluateRecord (adjustBase b) t d)) := by
  unfold evaluate_items at h
  by_cases h1 : (duplicatedIds d).isEmpty = true
  · left
    refine ⟨List.isEmpty_iff.mp h1, ?_⟩
    simp only [h1, if_true] at h
    exact (Option.some_injective _ h).symm
  · right
    refine ⟨fun hn => h1 (by simp [hn]), ?_⟩
    by_cases h2 : (duplicatedIds d).all (fun n =>
        !decide (resolveThresh (adjustBase b) t (groupTaxCode (idRecs d n)) =
          INVALID_THRESHOLD)) = true
    · refine ⟨h2, ?_⟩
      simp only [h1, h2, if_true, if_false] at h
      exact (Option.some_injective _ h).symm
    · simp only [h1, h2, if_false] at h
      exact absurd h (by simp)

theorem evaluate_items_zip {out : List Record} (b : ℚ) (t : List (String × ℚ))
    (d : List Record) (h : evaluate_items b t d = some out) :
    out.length = d.length ∧
    ∀ p ∈ d.zip out, p.2 = evaluateRecord (adjustBase b) t d p.1 := by
  rcases evaluate_items_branches b t d h with ⟨hnil, rfl⟩ | ⟨_, _, rfl⟩
  · refine ⟨rfl, ?_⟩
    intro p hp
    rw [zip_self_eq_map] at hp
    rcases List.mem_map.mp hp with ⟨a, _, rfl⟩
    rcases ha : a.id with _ | n
    · exact (evaluateRecord_none _ _ _ ha).symm
    · exact (evaluateRecord_not_dup _ _ _ ha (isDuplicated_eq_false_of_nil n hnil)).symm
  · refine ⟨by simp, ?_⟩
    intro p hp
    rw [zip_map_right_self] at hp
    rcases List.mem_map.mp hp with ⟨a, _, rfl⟩
    rfl


theorem evaluate_items_eq_map {out : List Record} (b : ℚ) (t : List (String × ℚ))
    (d : List Record) (h : evaluate_items b t d = some out) :
    out = d.map (evaluateRecord (adjustBase b) t d) := by
  rcases evaluate_items_branches b t d h with ⟨hnil, hout⟩ | ⟨_, _, hout⟩
  · rw [hout]
    have hmap : List.map (evaluateRecord (adjustBase b) t d) d = List.map id d := by
      apply List.map_congr_left
      intro a _
      rcases Option.eq_none_or_eq_some a.id with ha | ⟨n, ha⟩
      · exact evaluateRecord_none _ _ _ ha
      · exact evaluateRecord_not_dup _ _ _ ha (isDuplicated_eq_false_of_nil n hnil)
    rw [hmap, List.map_id]
  · exact hout

theorem evaluateRecord_frame (b : ℚ) (t : List (String × ℚ)) (d : List Record) (r : Record) :
    (evaluateRecord b t d r).documentNumber = r.documentNumber ∧
    (evaluateRecord b t d r).documentType = r.documentType ∧
    (evaluateRecord b t d r).dcAmount = r.dcAmount ∧
    (evaluateRecord b t d r).currency = r.currency ∧
    (evaluateRecord b t d r).tax = r.tax ∧
    (evaluateRecord b t d r).textCases = r.textCases ∧
    (evaluateRecord b t d r).branch = r.branch ∧
    (evaluateRecord b t d r).headOffice = r.headOffice ∧
    (evaluateRecord b t d r).id = r.id ∧
    (evaluateRecord b t d r).virtualId = r.virtualId ∧
    (evaluateRecord b t d r).warnings = r.warnings ∧
    (evaluateRecord b t d r).debitor = r.debitor ∧
    (evaluateRecord b t d r).caseId = r.caseId ∧
    (evaluateRecord b t d r).notification = r.notification ∧
    (evaluateRecord b t d r).status = r.status ∧
    (evaluateRecord b t d r).rootCause = r.rootCause ∧
    (evaluateRecord b t d r).category = r.category ∧
    (evaluateRecord b t d r).customerName = r.customerName := by
  rcases evaluateRecord_cases b t d r with h | ⟨n, _, _, h⟩ <;> rw [h] <;> simp

theorem evaluateRecord_mono (b : ℚ) (t : List (String × ℚ)) (d : List Record) (r : Record) :
    (r.idMatch = true → (evaluateRecord b t d r).idMatch = true) ∧
    (r.taxMatch = true → (evaluateRecord b t d r).taxMatch = true) ∧
    (r.amountMatch = true → (evaluateRecord b t d r).amountMatch = true) := by
  rcases evaluateRecord_cases b t d r with h | ⟨n, _, _, h⟩ <;> rw [h] <;>
    refine ⟨fun hh => ?_, fun hh => ?_, fun hh => ?_⟩ <;> simp [hh]

theorem exists_member_of_dup {d : List Record} {n : Nat} (h : isDuplicated d n = true) :
    ∃ r ∈ d, r.id = some n := by
  have h2 : 2 ≤ (idValues d).count n := of_decide_eq_true h
  have h3 : n ∈ idValues d := List.count_pos_iff.mp (lt_of_lt_of_le (by norm_num) h2)
  rcases List.mem_filterMap.mp h3 with ⟨r, hr, hid⟩
  exact ⟨r, hr, hid⟩

theorem groupAmountMatched_iff (th : ℚ) (recs : List Record) :
    groupAmountMatched th recs = true ↔
      (|sumAmounts recs| < th ∧
        (∃ r ∈ recs, 0 < r.dcAmount) ∧ (∃ r ∈ recs, r.dcAmount < 0)) := by
  unfold groupAmountMatched
  simp [List.any_eq_true, and_assoc]

theorem groupTaxMatched_iff (recs : List Record) :
    groupTaxMatched recs = true ↔
      ((groupTaxes recs).length = 1 ∨
        ((groupTaxes recs).length = 2 ∧ nullTax ∈ groupTaxes recs ∧
          groupTaxCode recs ∈ allowedTaxCodes)) := by
  unfold groupTaxMatched
  by_cases h1 : (groupTaxes recs).length = 1
  · simp [h1]
  · by_cases h2 : (groupTaxes recs).length = 2 ∧ nullTax ∈ groupTaxes recs
    · simp [h1, h2]
    · simp only [h1, h2, if_false]
      constructor
      · intro hf
        simp at hf
      · rintro (hl | ⟨hl2, hmem, _⟩)
        · exact hl.elim
        · exact absurd ⟨hl2, hmem⟩ h2

theorem evaluateRecord_idem (b : ℚ) (t : List (String × ℚ)) (d : List Record) (r : Record) :
    evaluateRecord b t (d.map (evaluateRecord b t d)) (evaluateRecord b t d r) =
      evaluateRecord b t d r := by
  rcases Option.eq_none_or_eq_some r.id with h | ⟨n, h⟩
  · rw [evaluateRecord_none b t d h, evaluateRecord_none b t _ h]
  · cases h2 : isDuplicated d n with
    | false =>
      rw [evaluateRecord_not_dup b t d h h2,
        evaluateRecord_not_dup b t _ h (by rw [isDuplicated_map_evaluateRecord]; exact h2)]
    | true =>
      have hid : (evaluateRecord b t d r).id = some n := by rw [evaluateRecord_id, h]
      have h2m : isDuplicated (d.map (evaluateRecord b t d)) n = true := by
        rw [isDuplicated_map_evaluateRecord]
        exact h2
      rw [evaluateRecord_dup b t _ hid h2m, idRecs_map_evaluateRecord,
        groupTaxMatched_map_evaluateRecord, groupTaxCode_map_evaluateRecord,
        groupAmountMatched_map_evaluateRecord, evaluateRecord_dup b t d h h2]
      simp [Bool.or_assoc]

unseal Rat.add Rat.mul Rat.inv Rat.sub Rat.ofScientific

/-- Claim C1: in `evaluate_items`, a duplicated-identifier group is
amount-matched (every member's `Amount_Match` raised to `True`) exactly when
the absolute sum of the members' signed amounts is strictly below the
resolved threshold and the group holds at least one positive and one
negative amount; in particular the spec's `[+100, -100]` group with one tax
code, one identifier and threshold `1.0` ends with all three flags `True`,
while an all-positive group summing under the threshold is not
amount-matched. -/
theorem amount_match_iff {out : List Record} (b : ℚ) (t : List (String × ℚ))
    (d : List Record) (n : Nat) (h : evaluate_items b t d = some out)
    (hdup : isDuplicated d n = true)
    (hinit : ∀ p ∈ d.zip out, p.1.id = some n → p.1.amountMatch = false) :
    ((∀ p ∈ d.zip out, p.1.id = some n → p.2.amountMatch = true) ↔
      (|sumAmounts (idRecs d n)| <
          resolveThresh (adjustBase b) t (groupTaxCode (idRecs d n)) ∧
        (∃ r ∈ idRecs d n, 0 < r.dcAmount) ∧ (∃ r ∈ idRecs d n, r.dcAmount < 0))) ∧
    evaluate_items 1 [] pairGroupData = some pairGroupExpected ∧
    evaluate_items 1 [] onesidedGroupData = some onesidedGroupExpected := by
  have hout := evaluate_items_eq_map b t d h
  subst hout
  have hz := zip_map_right_self d (evaluateRecord (adjustBase b) t d)
  refine ⟨?_, by decide, by decide⟩
  rw [← groupAmountMatched_iff]
  constructor
  · intro hall
    rcases exists_member_of_dup hdup with ⟨r, hr, hid⟩
    have hp : (r, evaluateRecord (adjustBase b) t d r) ∈
        d.zip (d.map (evaluateRecord (adjustBase b) t d)) := by
      rw [hz]
      exact List.mem_map.mpr ⟨r, hr, rfl⟩
    have h1 := hall _ hp hid
    have h0 : r.amountMatch = false := hinit _ hp hid
    rw [evaluateRecord_dup _ _ _ hid hdup] at h1
    simpa [h0] using h1
  · intro hA p hp hid
    rw [hz] at hp
    rcases List.mem_map.mp hp with ⟨a, ha, rfl⟩
    have hid2 : a.id = some n := hid
    rw [evaluateRecord_dup _ _ _ hid2 hdup]
    simp [hA]

/-- Witness for `amount_match_iff` at the spec's `[+100, -100]` group. -/
theorem amount_match_iff_witness :
    (evaluate_items 1 [] pairGroupData = some pairGroupExpected ∧
      isDuplicated pairGroupData 5 = true ∧
      (∀ p ∈ pairGroupData.zip pairGroupExpected,
        p.1.id = some 5 → p.1.amountMatch = false)) ∧
    (((∀ p ∈ pairGroupData.zip pairGroupExpected,
        p.1.id = some 5 → p.2.amountMatch = true) ↔
      (|sumAmounts (idRecs pairGroupData 5)| <
          resolveThresh (adjustBase 1) [] (groupTaxCode (idRecs pairGroupData 5)) ∧
        (∃ r ∈ idRecs pairGroupData 5, 0 < r.dcAmount) ∧
        (∃ r ∈ idRecs pairGroupData 5, r.dcAmount < 0))) ∧
      evaluate_items 1 [] pairGroupData = some pairGroupExpected ∧
      evaluate_items 1 [] onesidedGroupData = some onesidedGroupExpected) :=
  ⟨⟨by decide, by decide, by decide⟩,
    amount_match_iff 1 [] pairGroupData 5 (by decide) (by decide) (by decide)⟩

/-- Claim C5: in `evaluate_items`, a member of a duplicated-identifier group
whose `Tax_Match` flag is still `False` on entry ends with `Tax_Match = True`
exactly when the group has one distinct tax code, or exactly two distinct
codes of which one is the null code and the non-null code is on the fixed
allow-list; no row's individual tax code is ever modified. -/
theorem tax_match_rule {out : List Record} (b : ℚ) (t : List (String × ℚ))
    (d : List Record) (n : Nat) (h : evaluate_items b t d = some out)
    (hdup : isDuplicated d n = true) :
    (∀ p ∈ d.zip out, p.1.id = some n → p.1.taxMatch = false →
      (p.2.taxMatch = true ↔
        ((groupTaxes (idRecs d n)).length = 1 ∨
          ((groupTaxes (idRecs d n)).length = 2 ∧ nullTax ∈ groupTaxes (idRecs d n) ∧
            groupTaxCode (idRecs d n) ∈ allowedTaxCodes)))) ∧
    (∀ p ∈ d.zip out, p.2.tax = p.1.tax) := by
  have hout := evaluate_items_eq_map b t d h
  subst hout
  have hz := zip_map_right_self d (evaluateRecord (adjustBase b) t d)
  constructor
  · intro p hp hid hinit
    rw [hz] at hp
    rcases List.mem_map.mp hp with ⟨a, ha, rfl⟩
    have hid2 : a.id = some n := hid
    have hinit2 : a.taxMatch = false := hinit
    rw [← groupTaxMatched_iff, evaluateRecord_dup _ _ _ hid2 hdup]
    simp [hinit2]
  · intro p hp
    rw [hz] at hp
    rcases List.mem_map.mp hp with ⟨a, ha, rfl⟩
    simp [evaluateRecord_tax]

/-- Witness for `tax_match_rule` at a null/allow-listed tax pair. -/
theorem tax_match_rule_witness :
    (evaluate_items 1 [] nullPairGroupData = some nullPairGroupExpected ∧
      isDuplicated nullPairGroupData 7 = true) ∧
    ((∀ p ∈ nullPairGroupData.zip nullPairGroupExpected,
        p.1.id = some 7 → p.1.taxMatch = false →
      (p.2.taxMatch = true ↔
        ((groupTaxes (idRecs nullPairGroupData 7)).length = 1 ∨
          ((groupTaxes (idRecs nullPairGroupData 7)).length = 2 ∧
            nullTax ∈ groupTaxes (idRecs nullPairGroupData 7) ∧
            groupTaxCode (idRecs nullPairGroupData 7) ∈ allowedTaxCodes)))) ∧
      (∀ p ∈ nullPairGroupData.zip nullPairGroupExpected, p.2.tax = p.1.tax)) :=
  ⟨⟨by decide, by decide⟩,
    tax_match_rule 1 [] nullPairGroupData 7 (by decide) (by decide)⟩

/-- Claim C7: a base threshold of exactly `0` is nudged to `0.01` while a
non-zero base threshold is used as given; with base `0` and no per-tax-code
threshold for the group's tax code, a duplicated group summing to exactly
`0.00` with one positive and one negative member is amount-matched, and a
group summing to `0.02` is not. -/
theorem zero_threshold_epsilon :
    (∀ b : ℚ, b ≠ 0 → adjustBase b = b) ∧
    adjustBase 0 = 1 / 100 ∧
    (∀ (t : List (String × ℚ)) (d out : List Record) (n : Nat),
      evaluate_items 0 t d = some out →
      isDuplicated d n = true →
      t.lookup (groupTaxCode (idRecs d n)) = none →
      ∀ p ∈ d.zip out, p.1.id = some n → p.1.amountMatch = false →
        (p.2.amountMatch = true ↔
          (|sumAmounts (idRecs d n)| < 1 / 100 ∧
            (∃ r ∈ idRecs d n, 0 < r.dcAmount) ∧ (∃ r ∈ idRecs d n, r.dcAmount < 0)))) ∧
    evaluate_items 0 [] zeroSumGroupData = some zeroSumGroupExpected ∧
    evaluate_items 0 [] twoCentGroupData = some twoCentGroupExpected := by
  refine ⟨fun b hb => by simp [adjustBase, hb], by norm_num [adjustBase], ?_,
    by decide, by decide⟩
  intro t d out n hev hdup hlk p hp hid hinit
  have hout := evaluate_items_eq_map 0 t d hev
  subst hout
  rw [zip_map_right_self] at hp
  rcases List.mem_map.mp hp with ⟨a, ha, rfl⟩
  have hid2 : a.id = some n := hid
  have hinit2 : a.amountMatch = false := hinit
  have hth : resolveThresh (adjustBase 0) t (groupTaxCode (idRecs d n)) = 1 / 100 := by
    unfold resolveThresh
    rw [hlk]
    norm_num [adjustBase]
  rw [← groupAmountMatched_iff, evaluateRecord_dup _ _ _ hid2 hdup, hth]
  simp [hinit2]

/-- Witness for `zero_threshold_epsilon` at the exact-zero group. -/
theorem zero_threshold_epsilon_witness :
    (evaluate_items 0 [] zeroSumGroupData = some zeroSumGroupExpected ∧
      isDuplicated zeroSumGroupData 9 = true ∧
      ([] : List (String × ℚ)).lookup (groupTaxCode (idRecs zeroSumGroupData 9)) = none) ∧
    (∀ p ∈ zeroSumGroupData.zip zeroSumGroupExpected,
      p.1.id = some 9 → p.1.amountMatch = false →
        (p.2.amountMatch = true ↔
          (|sumAmounts (idRecs zeroSumGroupData 9)| < 1 / 100 ∧
            (∃ r ∈ idRecs zeroSumGroupData 9, 0 < r.dcAmount) ∧
            (∃ r ∈ idRecs zeroSumGroupData 9, r.dcAmount < 0)))) :=
  ⟨⟨by decide, by decide, by decide⟩,
    zero_threshold_epsilon.2.2.1 [] zeroSumGroupData zeroSumGroupExpected 9
      (by decide) (by decide) (by decide)⟩

/-- Claim C8: evaluation is idempotent: re-running `evaluate_items` with the
same thresholds on its own output returns that output unchanged, so the
matched subset extracted by `get_matched_items` is the same whether
evaluation ran once or twice. -/
theorem evaluation_idempotent {out : List Record} (b : ℚ) (t : List (String × ℚ))
    (d : List Record) (h : evaluate_items b t d = some out) :
    evaluate_items b t out = some out ∧
    ∀ out2, evaluate_items b t out = some out2 →
      get_matched_items out2 = get_matched_items out := by
  have main : evaluate_items b t out = some out := by
    rcases evaluate_items_branches b t d h with ⟨hnil, hout⟩ | ⟨hne, hall, hout⟩
    · rw [hout]
      unfold evaluate_items
      simp [hnil]
    · rw [hout]
      have hne2 : (duplicatedIds d).isEmpty = false := by
        cases hemp : (duplicatedIds d).isEmpty
        · rfl
        · exact absurd (List.isEmpty_iff.mp hemp) hne
      unfold evaluate_items
      simp only [duplicatedIds_map_evaluateRecord, idRecs_map_evaluateRecord,
        groupTaxCode_map_evaluateRecord, hne2, hall, Bool.false_eq_true, if_false, if_true]
      rw [List.map_map]
      congr 1
      apply List.map_congr_left
      intro a _
      simpa [Function.comp] using evaluateRecord_idem (adjustBase b) t d a
  refine ⟨main, fun out2 h2 => ?_⟩
  rw [main] at h2
  rw [← Option.some_injective _ h2]

/-- Witness for `evaluation_idempotent` at the `[+100, -100]` group. -/
theorem evaluation_idempotent_witness :
    (evaluate_items 1 [] pairGroupData = some pairGroupExpected) ∧
    (evaluate_items 1 [] pairGroupExpected = some pairGroupExpected ∧
      ∀ out2, evaluate_items 1 [] pairGroupExpected = some out2 →
        get_matched_items out2 = get_matched_items pairGroupExpected) :=
  ⟨by decide, evaluation_idempotent 1 [] pairGroupData (by decide)⟩

/-- Claim C10: `evaluate_items` returns a record set with exactly the same
rows, every field other than the three match flags unchanged, and each flag
only ever raised from `False` to `True` (the input itself is a pure value in
this embedding, matching the `data = consolid.copy()` of the source). -/
theorem evaluate_items_frame_effect {out : List Record} (b : ℚ) (t : List (String × ℚ))
    (d : List Record) (h : evaluate_items b t d = some out) :
    out.length = d.length ∧
    ∀ p ∈ d.zip out,
      (p.2.documentNumber = p.1.documentNumber ∧
        p.2.documentType = p.1.documentType ∧
        p.2.dcAmount = p.1.dcAmount ∧
        p.2.currency = p.1.currency ∧
        p.2.tax = p.1.tax ∧
        p.2.textCases = p.1.textCases ∧
        p.2.branch = p.1.branch ∧
        p.2.headOffice = p.1.headOffice ∧
        p.2.id = p.1.id ∧
        p.2.virtualId = p.1.virtualId ∧
        p.2.warnings = p.1.warnings ∧
        p.2.debitor = p.1.debitor ∧
        p.2.caseId = p.1.caseId ∧
        p.2.notification = p.1.notification ∧
        p.2.status = p.1.status ∧
        p.2.rootCause = p.1.rootCause ∧
        p.2.category = p.1.category ∧
        p.2.customerName = p.1.customerName) ∧
      (p.1.idMatch = true → p.2.idMatch = true) ∧
      (p.1.taxMatch = true → p.2.taxMatch = true) ∧
      (p.1.amountMatch = true → p.2.amountMatch = true) := by
  obtain ⟨hlen, hzip⟩ := evaluate_items_zip b t d h
  refine ⟨hlen, fun p hp => ?_⟩
  rw [hzip p hp]
  exact ⟨evaluateRecord_frame (adjustBase b) t d p.1,
    (evaluateRecord_mono (adjustBase b) t d p.1).1,
    (evaluateRecord_mono (adjustBase b) t d p.1).2.1,
    (evaluateRecord_mono (adjustBase b) t d p.1).2.2⟩

/-- Witness for `evaluate_items_frame_effect` at the one-sided group. -/
theorem evaluate_items_frame_effect_witness :
    (evaluate_items 1 [] onesidedGroupData = some onesidedGroupExpected) ∧
    (onesidedGroupExpected.length = onesidedGroupData.length ∧
      ∀ p ∈ onesidedGroupData.zip onesidedGroupExpected,
        (p.2.documentNumber = p.1.documentNumber ∧
          p.2.documentType = p.1.documentType ∧
          p.2.dcAmount = p.1.dcAmount ∧
          p.2.currency = p.1.currency ∧
          p.2.tax = p.1.tax ∧
          p.2.textCases = p.1.textCases ∧
          p.2.branch = p.1.branch ∧
          p.2.headOffice = p.1.headOffice ∧
          p.2.id = p.1.id ∧
          p.2.virtualId = p.1.virtualId ∧
          p.2.warnings = p.1.warnings ∧
          p.2.debitor = p.1.debitor ∧
          p.2.caseId = p.1.caseId ∧
          p.2.notification = p.1.notification ∧
          p.2.status = p.1.status ∧
          p.2.rootCause = p.1.rootCause ∧
          p.2.category = p.1.category ∧
          p.2.customerName = p.1.customerName) ∧
        (p.1.idMatch = true → p.2.idMatch = true) ∧
        (p.1.taxMatch = true → p.2.taxMatch = true) ∧
        (p.1.amountMatch = true → p.2.amountMatch = true)) :=
  ⟨by decide, evaluate_items_frame_effect 1 [] onesidedGroupData (by decide)⟩

/-- Claim C3: `_get_new_root_cause` never returns a value outside
{`L01`, `L06`}: a previously assigned `L01`/`L06` is returned unchanged
regardless of document types (a prior `L06` with document types implying
`L01` stays `L06`); otherwise `DG` (credit memo) yields `L06`, and `DZ`/`DA`
(payment/debit) yield `L01`; when no branch applies the Python function
raises before returning (`none` here), and the call site in
`create_clearing_input` asserts membership in {`L01`, `L06`}. -/
theorem root_cause_resolution (prev : String) (dts : List String) :
    (∀ v, _get_new_root_cause prev dts = some v → v = "L01" ∨ v = "L06") ∧
    (prev = "L01" ∨ prev = "L06" → _get_new_root_cause prev dts = some prev) ∧
    (¬(prev = "L01" ∨ prev = "L06") → "DG" ∈ dts →
      _get_new_root_cause prev dts = some "L06") ∧
    (¬(prev = "L01" ∨ prev = "L06") → "DG" ∉ dts → ("DZ" ∈ dts ∨ "DA" ∈ dts) →
      _get_new_root_cause prev dts = some "L01") ∧
    _get_new_root_cause "L06" ["DZ"] = some "L06" := by
  refine ⟨?_, ?_, ?_, ?_, by decide⟩
  · intro v hv
    unfold _get_new_root_cause at hv
    split at hv
    · rename_i hp
      rw [Option.some_inj] at hv
      subst hv
      tauto
    · split at hv
      · rw [Option.some_inj] at hv
        exact Or.inr hv.symm
      · split at hv
        · rw [Option.some_inj] at hv
          exact Or.inl hv.symm
        · exact absurd hv (by simp)
  · intro hp
    unfold _get_new_root_cause
    rcases hp with hp | hp <;> simp [hp]
  · intro hp hdg
    have hne : ¬(prev = "L06" ∨ prev = "L01") := fun hc => hp hc.symm
    unfold _get_new_root_cause
    simp [hne, hdg]
  · intro hp hdg hdza
    have hne : ¬(prev = "L06" ∨ prev = "L01") := fun hc => hp hc.symm
    unfold _get_new_root_cause
    rcases hdza with hz | hz <;> simp [hne, hdg, hz]

/-- Witness for `root_cause_resolution` at a fresh root cause with a credit
memo document type. -/
theorem root_cause_resolution_witness :
    (¬("XX" = "L01" ∨ "XX" = "L06") ∧ "DG" ∈ ["DG", "DZ"]) ∧
    _get_new_root_cause "XX" ["DG", "DZ"] = some "L06" :=
  ⟨⟨by decide, by decide⟩,
    (root_cause_resolution "XX" ["DG", "DZ"]).2.2.1 (by decide) (by decide)⟩

/-- Claim C2: the FBL5N export loop runs an entity's export only when its
`fbl5n_data_exported` checkpoint is false and, on completion of any branch
other than the no-data `continue`, persists the checkpoint as true; the
conversion loop runs `preprocess_fbl5n_data` only when `fbl5n_data_exported`
is true and `fbl5n_data_converted` is false, and on success persists
`fbl5n_data_converted`; replaying a persisted state with `exported = true,
converted = false` does not re-invoke the export but does invoke the
conversion, which reads the state the export stage left behind.  The same
gating holds for the later stages: a true `data_consolidated` checkpoint
replays the stored consolidation instead of recomputing it, and a true
`f30_items_cleared` checkpoint replays the stored clearing output instead of
re-posting. -/
theorem checkpoint_gating_and_replay :
    (∀ (o : ExportOutcome) (st : EntityState) (s : Bool),
      0 < (export_fbl5n_entity o st s).exportCalls → st.fbl5n_data_exported = false) ∧
    (∀ (o : ExportOutcome) (st : EntityState) (s : Bool),
      st.fbl5n_data_exported = false → o ≠ ExportOutcome.noDataFound →
        (export_fbl5n_entity o st s).state.fbl5n_data_exported = true) ∧
    (∀ (bin : List Record) (conv : Option (List Record)) (st : EntityState) (s : Bool),
      (load_fbl5n_entity bin conv st s).convertCalled = true →
        st.fbl5n_data_exported = true ∧ st.fbl5n_data_converted = false) ∧
    (∀ (bin c : List Record) (st : EntityState) (s : Bool),
      st.fbl5n_data_exported = true → st.fbl5n_data_converted = false →
        (load_fbl5n_entity bin (some c) st s).state.fbl5n_data_converted = true) ∧
    (∀ (o : ExportOutcome) (bin conv : List Record) (s s2 : Bool),
      (export_fbl5n_entity o { fbl5n_data_exported := true } s).exportCalls = 0 ∧
      (export_fbl5n_entity o { fbl5n_data_exported := true } s).state =
        { fbl5n_data_exported := true } ∧
      (load_fbl5n_entity bin (some conv)
        (export_fbl5n_entity o { fbl5n_data_exported := true } s).state
        s2).convertCalled = true) ∧
    (∀ (e : ConsEntity) (rest : List ConsEntity) (s : Bool) (done : List String),
      e.dmsExported = true → e.dataConsolidated = true →
        consolidate_data_go s done (e :: rest) = consolidate_data_go true done rest) ∧
    (∀ (currs : List (List ClearRecordIn × PostOutcome)) (st : EntityState) (s : Bool),
      st.f30_items_cleared = true →
        clear_open_items_entity (some currs) st s = ⟨st, false, true⟩) := by
  refine ⟨?_, ?_, ?_, ?_, ?_, ?_, ?_⟩
  · intro o st s hc
    cases hb : st.fbl5n_data_exported
    · rfl
    · simp [export_fbl5n_entity, hb] at hc
  · intro o st s hb ho
    cases o
    case noDataFound => exact absurd rfl ho
    all_goals simp [export_fbl5n_entity, hb]
  · intro bin conv st s hc
    cases hb : st.fbl5n_data_exported
    · simp [load_fbl5n_entity, hb] at hc
    · cases hcv : st.fbl5n_data_converted
      · exact ⟨rfl, rfl⟩
      · cases conv <;> simp [load_fbl5n_entity, hb, hcv] at hc
  · intro bin c st s hb hcv
    simp [load_fbl5n_entity, hb, hcv]
  · intro o bin conv s s2
    refine ⟨?_, ?_, ?_⟩
    · cases o <;> rfl
    · cases o <;> rfl
    · cases o <;> rfl
  · intro e rest s done he hdc
    simp [consolidate_data_go, he, hdc]
  · intro currs st s hc
    simp [clear_open_items_entity, hc]

/-- Witness for `checkpoint_gating_and_replay`: the replay state with
`exported = true, converted = false` invokes and completes the conversion. -/
theorem checkpoint_gating_and_replay_witness :
    (({ fbl5n_data_exported := true } : EntityState).fbl5n_data_exported = true ∧
      ({ fbl5n_data_exported := true } : EntityState).fbl5n_data_converted = false) ∧
    (load_fbl5n_entity [] (some [])
      { fbl5n_data_exported := true } false).state.fbl5n_data_converted = true :=
  ⟨⟨rfl, rfl⟩,
    checkpoint_gating_and_replay.2.2.2.1 [] [] { fbl5n_data_exported := true } false rfl rfl⟩

/-- Claim C9 counterexample: a stage that runs and finds no applicable work
leaves its checkpoint false instead of setting it true: the FBL5N export hit
by `NoDataFoundWarning` runs (one export call) but leaves
`fbl5n_data_exported` false, and the clearing stage invoked with a null
clearing input leaves `f30_items_cleared` false; the claim's "still sets its
checkpoint to true and persists it" is false on both cited stages. -/
theorem no_work_checkpoint_counterexample :
    (export_fbl5n_entity ExportOutcome.noDataFound {} false).exportCalls = 1 ∧
    (export_fbl5n_entity ExportOutcome.noDataFound {} false).state.fbl5n_data_exported =
      false ∧
    (clear_open_items_entity none {} false).state.f30_items_cleared = false :=
  ⟨rfl, rfl, rfl⟩

/-- Claim C9 (amended): a stage that finds no applicable work does not treat
the situation as a failure, and the absence of data is recorded as a null
accumulator entry — but the stage's checkpoint is left false rather than set
true, and downstream stages key off that false checkpoint: the export leaves
`fbl5n_data_exported` false on `NoDataFoundWarning`; the load stage reads
the false checkpoint as "no open items", stores a null `fbl5n_data` entry
and moves on; the clearing stage with a null clearing input stores a null
output, reports success and leaves its checkpoint untouched; and an entity
whose clearing records are all skipped persists `f30_items_cleared` as
false. -/
theorem no_work_not_failure :
    (∀ (st : EntityState) (s : Bool), st.fbl5n_data_exported = false →
      (export_fbl5n_entity ExportOutcome.noDataFound st s).state = st ∧
      (export_fbl5n_entity ExportOutcome.noDataFound st s).exportCalls = 1 ∧
      (export_fbl5n_entity ExportOutcome.noDataFound st s).success = s) ∧
    (∀ (bin : List Record) (conv : Option (List Record)) (st : EntityState) (s : Bool),
      st.fbl5n_data_exported = false →
        load_fbl5n_entity bin conv st s = ⟨st, false, none, s⟩) ∧
    (∀ (st : EntityState) (s : Bool),
      clear_open_items_entity none st s = ⟨st, true, true⟩) ∧
    (∀ (recs : List ClearRecordIn) (oc : PostOutcome) (st : EntityState) (s : Bool),
      st.f30_items_cleared = false → recs.all (·.skipped) = true →
        (clear_open_items_entity (some [(recs, oc)]) st s).state.f30_items_cleared =
          false) := by
  refine ⟨?_, ?_, ?_, ?_⟩
  · intro st s hb
    refine ⟨?_, ?_, ?_⟩ <;> simp [export_fbl5n_entity, hb]
  · intro bin conv st s hb
    simp [load_fbl5n_entity, hb]
  · intro st s
    rfl
  · intro recs oc st s hb hskip
    have hcc : clear_currency recs oc = false := by
      unfold clear_currency
      simp [hskip]
    simp [clear_open_items_entity, hb, hcc]

/-- Witness for `no_work_not_failure` at an all-false checkpoint state. -/
theorem no_work_not_failure_witness :
    (({} : EntityState).fbl5n_data_exported = false) ∧
    ((export_fbl5n_entity ExportOutcome.noDataFound {} true).state = {} ∧
      (export_fbl5n_entity ExportOutcome.noDataFound {} true).exportCalls = 1 ∧
      (export_fbl5n_entity ExportOutcome.noDataFound {} true).success = true) :=
  ⟨rfl, no_work_not_failure.1 {} true rfl⟩

theorem leftMerge_nil_iff (items : List Item) (dms : List Case) :
    leftMerge items dms = [] ↔ items = [] := by
  cases items with
  | nil => simp [leftMerge]
  | cons it its =>
    simp only [leftMerge, List.flatMap_cons]
    constructor
    · intro h
      rcases List.append_eq_nil.mp h with ⟨h1, _⟩
      by_cases hms : (dms.filter (fun c => it.id = some c.caseId)).isEmpty
      · simp [hms] at h1
      · rw [if_neg hms] at h1
        have : dms.filter (fun c => it.id = some c.caseId) = [] :=
          List.map_eq_nil_iff.mp h1
        exact absurd (by simp [this] : (dms.filter (fun c => it.id = some c.caseId)).isEmpty = true) hms
    · intro h
      exact absurd h (by simp)

/-- Claim C6 counterexample: with a first entity whose ledger frame is empty
(the left merge yields zero rows) and a healthy sibling, `consolidate_data`
ends in the `AssertionError` of `consolidate`; the exception propagates out
of the entity loop (and `app.main` calls `consolidate_data` outside any
`try`), so sibling entities are not consolidated and the run aborts — the
claim's "never run-fatal" fails for the empty-merge assertion. -/
theorem empty_merge_aborts_run :
    consolidate_data [entNoItems, entGood] =
      Except.error "Data unmerged! Check the correctness of the megring key!" ∧
    consolidate_data [entGood, entNoItems] =
      Except.error "Data unmerged! Check the correctness of the megring key!" ∧
    consolidate_data [entGood] = Except.ok (true, ["B"]) :=
  ⟨rfl, rfl, rfl⟩

/-- Claim C6 (amended): the two data-integrity failures of consolidation are
scoped differently: a failed customer enrichment makes `consolidate` return
null and the `consolidate_data` loop merely skips that entity, continuing
with the siblings; the empty-merge assertion instead propagates out of the
loop uncaught, aborting the remaining entities and the run.  The assertion
fires exactly when the ledger frame handed to the merge is empty, and the
null return occurs exactly when customer data is supplied and some merged
row lacks a customer name. -/
theorem consolidation_failure_scoping :
    (∀ (e : ConsEntity) (rest : List ConsEntity) (s : Bool) (done : List String),
      e.dmsExported = true → e.dataConsolidated = false →
      consolidate e.items e.cases e.cust e.validTaxes = Except.ok none →
        consolidate_data_go s done (e :: rest) = consolidate_data_go s done rest) ∧
    (∀ (e : ConsEntity) (rest : List ConsEntity) (s : Bool) (done : List String)
        (msg : String),
      e.dmsExported = true → e.dataConsolidated = false →
      consolidate e.items e.cases e.cust e.validTaxes = Except.error msg →
        consolidate_data_go s done (e :: rest) = Except.error msg) ∧
    (∀ (items : List Item) (dms : List Case) (cust : Option (List CustRow))
        (vt : List String),
      (∃ msg, consolidate items dms cust vt = Except.error msg) ↔ items = []) ∧
    (∀ (items : List Item) (dms : List Case) (cs : List CustRow) (vt : List String),
      items ≠ [] →
      (consolidate items dms (some cs) vt = Except.ok none ↔
        (enrichCustomers (leftMerge items dms) cs).any
          (fun r => r.customerName.isNone) = true)) := by
  refine ⟨?_, ?_, ?_, ?_⟩
  · intro e rest s done he hdc hcons
    simp [consolidate_data_go, he, hdc, hcons]
  · intro e rest s done msg he hdc hcons
    simp [consolidate_data_go, he, hdc, hcons]
  · intro items dms cust vt
    constructor
    · rintro ⟨msg, hmsg⟩
      unfold consolidate at hmsg
      by_cases hlen : (leftMerge items dms).length = 0
      · exact (leftMerge_nil_iff items dms).mp (List.length_eq_zero.mp hlen)
      · rw [if_neg hlen] at hmsg
        cases cust with
        | none => exact absurd hmsg (by simp)
        | some cs =>
          by_cases hany : (enrichCustomers (leftMerge items dms) cs).any
              (fun r => r.customerName.isNone) = true
          · simp [hany] at hmsg
          · simp [hany] at hmsg
    · intro h
      refine ⟨"Data unmerged! Check the correctness of the megring key!", ?_⟩
      unfold consolidate
      have : leftMerge items dms = [] := (leftMerge_nil_iff items dms).mpr h
      simp [this]
  · intro items dms cs vt hne
    have hlen : ¬(leftMerge items dms).length = 0 := by
      intro hc
      exact hne ((leftMerge_nil_iff items dms).mp (List.length_eq_zero.mp hc))
    unfold consolidate
    rw [if_neg hlen]
    by_cases hany : (enrichCustomers (leftMerge items dms) cs).any
        (fun r => r.customerName.isNone) = true
    · simp [hany]
    · simp [hany]

/-- Witness for `consolidation_failure_scoping`: the enrichment-failure
entity is skipped and the loop continues with its sibling. -/
theorem consolidation_failure_scoping_witness :
    (entEnrichFail.dmsExported = true ∧ entEnrichFail.dataConsolidated = false ∧
      consolidate entEnrichFail.items entEnrichFail.cases entEnrichFail.cust
        entEnrichFail.validTaxes = Except.ok none) ∧
    consolidate_data_go false [] [entEnrichFail, entGood] =
      consolidate_data_go false [] [entGood] :=
  ⟨⟨rfl, rfl, rfl⟩,
    consolidation_failure_scoping.1 entEnrichFail [entGood] false [] rfl rfl rfl⟩

theorem assignVirtAux_getElem? (idx : Nat) (cs : List Nat) (vid : Nat) :
    ∀ (l : List Record) (j k : Nat),
      (assignVirtAux idx cs vid j l)[k]? =
        (l[k]?).map (fun r =>
          if j + k = idx || cs.any (fun c => r.id = some c) then
            { r with virtualId := some vid }
          else r) := by
  intro l
  induction l with
  | nil =>
    intro j k
    simp [assignVirtAux]
  | cons r rs ih =>
    intro j k
    cases k with
    | zero => simp [assignVirtAux]
    | succ k2 =>
      have harith : j + (k2 + 1) = (j + 1) + k2 := by omega
      simp only [assignVirtAux, List.getElem?_cons_succ, harith]
      rw [ih (j + 1) k2]

theorem assignVirt_getElem? (virt : List Record) (idx : Nat) (cs : List Nat) (vid k : Nat) :
    (assignVirt virt idx cs vid)[k]? =
      (virt[k]?).map (fun r =>
        if k = idx || cs.any (fun c => r.id = some c) then { r with virtualId := some vid }
        else r) := by
  unfold assignVirt
  rw [assignVirtAux_getElem?]
  simp

theorem touches_cond (orig : List Record) (k idx : Nat) (r0 : Record) :
    (decide (k = idx) || (refsAt orig idx).any (fun c => r0.id = some c)) = true ↔
      touches orig r0.id k idx := by
  unfold touches
  rw [Bool.or_eq_true, decide_eq_true_iff, List.any_eq_true]
  constructor
  · rintro (h | ⟨c, hc, hcc⟩)
    · exact Or.inl h
    · exact Or.inr ⟨c, hc, of_decide_eq_true hcc⟩
  · rintro (h | ⟨c, hc, hcc⟩)
    · exact Or.inl h
    · exact Or.inr ⟨c, hc, decide_eq_true hcc⟩

theorem virtualizeLoop_untouched (orig : List Record) :
    ∀ (idxs : List Nat) (vid : Nat) (virt : List Record) (k : Nat) (r0 : Record),
      virt[k]? = some r0 →
      (∀ (q idx2 : Nat), idxs[q]? = some idx2 → ¬touches orig r0.id k idx2) →
      (virtualizeLoop orig idxs vid virt)[k]? = some r0 := by
  intro idxs
  induction idxs with
  | nil =>
    intro vid virt k r0 h _
    simpa [virtualizeLoop] using h
  | cons idx rest ih =>
    intro vid virt k r0 h hq
    have hnt : ¬touches orig r0.id k idx := hq 0 idx (by simp)
    have hcond : (decide (k = idx) ||
        (refsAt orig idx).any (fun c => r0.id = some c)) = false :=
      Bool.eq_false_iff.mpr (fun hc => hnt ((touches_cond orig k idx r0).mp hc))
    have h2 : (assignVirt virt idx (refsAt orig idx) vid)[k]? = some r0 := by
      rw [assignVirt_getElem?, h, Option.map_some',
        if_neg (Bool.eq_false_iff.mp hcond)]
    show (virtualizeLoop orig rest (vid + 1)
      (assignVirt virt idx (refsAt orig idx) vid))[k]? = some r0
    refine ih (vid + 1) (assignVirt virt idx (refsAt orig idx) vid) k r0 h2 ?_
    intro q idx2 hq2
    exact hq (q + 1) idx2 (by simpa using hq2)

theorem virtualizeLoop_touched (orig : List Record) :
    ∀ (idxs : List Nat) (p : Nat) (vid : Nat) (virt : List Record) (k idx0 : Nat)
      (r0 : Record),
      virt[k]? = some r0 →
      idxs[p]? = some idx0 →
      touches orig r0.id k idx0 →
      (∀ (q idx2 : Nat), p < q → idxs[q]? = some idx2 → ¬touches orig r0.id k idx2) →
      (virtualizeLoop orig idxs vid virt)[k]? =
        some { r0 with virtualId := some (vid + p) } := by
  intro idxs
  induction idxs with
  | nil =>
    intro p vid virt k idx0 r0 _ hp _ _
    simp at hp
  | cons idx rest ih =>
    intro p vid virt k idx0 r0 hk hp ht hq
    cases p with
    | zero =>
      rw [List.getElem?_cons_zero, Option.some_inj] at hp
      subst hp
      have hcond : (decide (k = idx) ||
          (refsAt orig idx).any (fun c => r0.id = some c)) = true :=
        (touches_cond orig k idx r0).mpr ht
      have h2 : (assignVirt virt idx (refsAt orig idx) vid)[k]? =
          some { r0 with virtualId := some vid } := by
        rw [assignVirt_getElem?, hk, Option.map_some', if_pos hcond]
      have h3 : (virtualizeLoop orig rest (vid + 1)
          (assignVirt virt idx (refsAt orig idx) vid))[k]? =
          some { r0 with virtualId := some vid } := by
        refine virtualizeLoop_untouched orig rest (vid + 1)
          (assignVirt virt idx (refsAt orig idx) vid) k
          { r0 with virtualId := some vid } h2 ?_
        intro q idx2 hq2
        exact hq (q + 1) idx2 (Nat.succ_pos q) (by simpa using hq2)
      simpa [virtualizeLoop] using h3
    | succ p2 =>
      rw [List.getElem?_cons_succ] at hp
      have hlater : ∀ (q idx2 : Nat), p2 < q → rest[q]? = some idx2 →
          ¬touches orig r0.id k idx2 := by
        intro q idx2 hpq hq2
        exact hq (q + 1) idx2 (by omega) (by simpa using hq2)
      have harith : vid + 1 + p2 = vid + (p2 + 1) := by omega
      show (virtualizeLoop orig rest (vid + 1)
        (assignVirt virt idx (refsAt orig idx) vid))[k]? = _
      by_cases hcond : (decide (k = idx) ||
          (refsAt orig idx).any (fun c => r0.id = some c)) = true
      · have hk2 : (assignVirt virt idx (refsAt orig idx) vid)[k]? =
            some { r0 with virtualId := some vid } := by
          rw [assignVirt_getElem?, hk, Option.map_some', if_pos hcond]
        have h4 := ih p2 (vid + 1) (assignVirt virt idx (refsAt orig idx) vid) k idx0
          { r0 with virtualId := some vid } hk2 hp ht hlater
        rw [h4, harith]
      · rw [Bool.not_eq_true] at hcond
        have hk2 : (assignVirt virt idx (refsAt orig idx) vid)[k]? = some r0 := by
          rw [assignVirt_getElem?, hk, Option.map_some',
            if_neg (Bool.eq_false_iff.mp hcond)]
        have h4 := ih p2 (vid + 1) (assignVirt virt idx (refsAt orig idx) vid) k idx0
          r0 hk2 hp ht hlater
        rw [h4, harith]

theorem multiIdxs_nodup (data : List Record) : (multiIdxs data).Nodup :=
  (List.nodup_range data.length).filter _

theorem pairwise_getElem?_of {R : Nat → Nat → Prop} {l : List Nat}
    (h : l.Pairwise R) {p q a b : Nat} (hpq : p < q) (hp : l[p]? = some a)
    (hq : l[q]? = some b) : R a b := by
  rcases List.getElem?_eq_some.mp hp with ⟨hplt, hpa⟩
  rcases List.getElem?_eq_some.mp hq with ⟨hqlt, hqb⟩
  subst hpa
  subst hqb
  exact List.pairwise_iff_getElem.mp h p q hplt hqlt hpq

theorem mem_multiIdxs {data : List Record} {i : Nat} (h : i ∈ multiIdxs data) :
    i < data.length ∧ isMultiCase ((data[i]?).getD defaultRecord) = true := by
  unfold multiIdxs at h
  rw [List.mem_filter] at h
  exact ⟨List.mem_range.mp h.1, h.2⟩

/-- Claim C4 (amended): when no two multi-case items share a referenced case
identifier, virtualization followed by the `ID`/`Virtual_ID` swap of
`consolidate` re-keys as the claim states: the multi-case row at position
`p` of the index-ordered multi-case list is allocated the synthetic
identifier `10000000 + p` from the monotonically increasing counter seeded
at `10000000` (distinct from every real identifier, which stays below that
seed), and that row together with every row whose `ID` equals one of its
referenced case identifiers ends with the synthetic identifier in the
primary `ID` field and its original `ID` demoted to `Virtual_ID`.  With
overlapping references the claim fails (see the counterexample): the later
multi-case item overwrites the earlier assignment on shared rows. -/
theorem virtual_id_rekeying (data : List Record) (p idx : Nat)
    (hpidx : (multiIdxs data)[p]? = some idx)
    (hid : ∀ i ∈ multiIdxs data, ∃ c ∈ refsAt data i,
      ((data[i]?).getD defaultRecord).id = some c)
    (hdisj : (multiIdxs data).Pairwise
      (fun i j => ∀ c, c ∈ refsAt data i → c ∉ refsAt data j))
    (hreal : ∀ r ∈ data, ∀ c, r.id = some c → c < 10000000) :
    (∀ r ∈ data, r.id ≠ some (10000000 + p)) ∧
    ∀ (k : Nat) (r0 : Record), data[k]? = some r0 →
      (k = idx ∨ ∃ c ∈ refsAt data idx, r0.id = some c) →
      (swapVirtual (_virtualize data 10000000))[k]? =
        some { r0 with id := some (10000000 + p), virtualId := r0.id } := by
  constructor
  · intro r hr hc
    have := hreal r hr (10000000 + p) hc
    omega
  · intro k r0 hk ht
    have hmem1 : idx ∈ multiIdxs data := List.getElem?_mem hpidx
    -- p is the last position whose loop iteration writes row k
    have hmax : ∀ (q idx2 : Nat), p < q → (multiIdxs data)[q]? = some idx2 →
        ¬touches data r0.id k idx2 := by
      intro q idx2 hpq hq2 htouch2
      have hmem2 : idx2 ∈ multiIdxs data := List.getElem?_mem hq2
      have hneq : idx ≠ idx2 :=
        pairwise_getElem?_of (multiIdxs_nodup data) hpq hpidx hq2
      have hdis : ∀ c, c ∈ refsAt data idx → c ∉ refsAt data idx2 :=
        pairwise_getElem?_of hdisj hpq hpidx hq2
      -- in either branch of the touch at p, the row's id is a reference of idx
      have hr0refs : ∃ c ∈ refsAt data idx, r0.id = some c := by
        rcases ht with hkidx | hex
        · have hgd : ((data[idx]?).getD defaultRecord) = r0 := by
            rw [← hkidx, hk, Option.getD_some]
          rcases hid idx hmem1 with ⟨c, hc, hcid⟩
          rw [hgd] at hcid
          exact ⟨c, hc, hcid⟩
        · exact hex
      rcases hr0refs with ⟨c, hc, hcid⟩
      rcases htouch2 with hkidx2 | ⟨c2, hc2, hcid2⟩
      · have hgd2 : ((data[idx2]?).getD defaultRecord) = r0 := by
          rw [← hkidx2, hk, Option.getD_some]
        rcases hid idx2 hmem2 with ⟨c2, hc2, hcid2⟩
        rw [hgd2] at hcid2
        rw [hcid] at hcid2
        rw [Option.some_inj] at hcid2
        subst hcid2
        exact hdis c hc hc2
      · rw [hcid] at hcid2
        rw [Option.some_inj] at hcid2
        subst hcid2
        exact hdis c hc hc2
    have hloop : (virtualizeLoop data (multiIdxs data) 10000000 data)[k]? =
        some { r0 with virtualId := some (10000000 + p) } :=
      virtualizeLoop_touched data (multiIdxs data) p 10000000 data k idx r0 hk hpidx
        ht hmax
    have hvirt : (_virtualize data 10000000)[k]? =
        some { r0 with virtualId := some (10000000 + p) } := by
      unfold _virtualize
      rw [if_neg ?hne]
      · exact hloop
      case hne =>
        intro hemp
        rw [List.isEmpty_iff] at hemp
        rw [hemp] at hpidx
        simp at hpidx
    have hmem : ({ r0 with virtualId := some (10000000 + p) } : Record) ∈
        _virtualize data 10000000 := List.getElem?_mem hvirt
    have hany : (_virtualize data 10000000).any (fun r => r.virtualId.isSome) = true := by
      rw [List.any_eq_true]
      exact ⟨_, hmem, rfl⟩
    unfold swapVirtual
    rw [if_pos hany, List.getElem?_map, hvirt]
    rfl

/-- Witness for `virtual_id_rekeying`: a single multi-case row citing cases
1 and 2 next to a row keyed by case 2. -/
theorem virtual_id_rekeying_witness :
    ((multiIdxs rekeyData)[0]? = some 0 ∧
      (∀ i ∈ multiIdxs rekeyData, ∃ c ∈ refsAt rekeyData i,
        ((rekeyData[i]?).getD defaultRecord).id = some c) ∧
      (multiIdxs rekeyData).Pairwise
        (fun i j => ∀ c, c ∈ refsAt rekeyData i → c ∉ refsAt rekeyData j) ∧
      (∀ r ∈ rekeyData, ∀ c, r.id = some c → c < 10000000)) ∧
    ((∀ r ∈ rekeyData, r.id ≠ some (10000000 + 0)) ∧
      ∀ (k : Nat) (r0 : Record), rekeyData[k]? = some r0 →
        (k = 0 ∨ ∃ c ∈ refsAt rekeyData 0, r0.id = some c) →
        (swapVirtual (_virtualize rekeyData 10000000))[k]? =
          some { r0 with id := some (10000000 + 0), virtualId := r0.id }) :=
  ⟨⟨by decide, by decide, by decide, by decide⟩,
    virtual_id_rekeying rekeyData 0 0 (by decide) (by decide) (by decide) (by decide)⟩

/-- Claim C4 counterexample: with overlapping multi-case references the
claimed re-keying fails.  In `overlapItems` the first multi-case item (rows
in index order; `Text` cites cases 1 and 2) is allocated the synthetic
identifier `10000000` which also references case 2, yet after consolidation
every record whose original identifier was case 2 (demoted to
`Virtual_ID = 2`) carries the later item's identifier `10000001`, not
`10000000` — the later multi-case item (citing cases 2 and 3) overwrote the
assignment. -/
theorem virtual_id_overlap_counterexample :
    consolidate overlapItems [] none [""] = Except.ok (some overlapExpected) ∧
    (∃ r ∈ overlapExpected, r.textCases = [1, 2] ∧ r.id = some 10000000) ∧
    (∃ r ∈ overlapExpected, r.virtualId = some 2) ∧
    (∀ r ∈ overlapExpected, r.virtualId = some 2 → r.id ≠ some 10000000) :=
  ⟨rfl, by decide, by decide, by decide⟩

end ARClearing
